import Mathlib

/-!
Verification development for the panditas tabular-transformation rules
(src/panditas/transformation_rules.py). The pandas DataFrame is modelled as a
shallow embedding: a table is an ordered association list of named columns of
tagged scalar values, and each transformation rule is translated into a Lean
function on that table type. Python exceptions are modelled with `Except`.
Float64 values are modelled as rationals; no claim below depends on binary
floating-point rounding.
-/

namespace Panditas

/-! ## String helpers (Python `in`, `startswith`, `endswith` on str) -/

/-- Does the first character list start with the second? -/
def charsStart : List Char → List Char → Bool
  | _, [] => true
  | [], _ :: _ => false
  | a :: as, b :: bs => a == b && charsStart as bs

/-- Does the pattern (second argument) occur as a contiguous run inside the
first list? -/
def charsHas : List Char → List Char → Bool
  | _, [] => true
  | [], _ :: _ => false
  | a :: as, b :: bs => charsStart (a :: as) (b :: bs) || charsHas as (b :: bs)

/-- Python `sub in s` (substring test). -/
def strHas (s sub : String) : Bool := charsHas s.data sub.data

/-- Python `s.startswith(pre)`. -/
def strStarts (s pre : String) : Bool := charsStart s.data pre.data

/-- Python `s.endswith(suf)`. -/
def strEnds (s suf : String) : Bool := charsStart s.data.reverse suf.data.reverse

/-! ## Scalar values and dtypes -/

/-- A scalar cell value: the tagged union over the column element types.
`null` models a missing value (pandas NaN / Python None); `rat` models float64
as an exact rational, which is faithful for every input the claims use. -/
inductive Val where
  | int (n : Int)
  | rat (q : Rat)
  | str (s : String)
  | bool (b : Bool)
  | null
deriving DecidableEq, Repr

/-- Numeric view of a value, used for ordering comparisons. Booleans compare
as 1/0, as in Python. -/
def valToRat : Val → Option Rat
  | .int a => some (a : Rat)
  | .rat a => some a
  | .bool b => some (if b then 1 else 0)
  | _ => none

/-- Elementwise `==` as pandas evaluates it: NaN compares unequal to
everything (including itself), numbers compare across int/float/bool, strings
compare to strings, and mixed string/number comparison is `False`. -/
def valEq : Val → Val → Bool
  | .null, _ => false
  | _, .null => false
  | .str a, .str b => a == b
  | .str _, _ => false
  | _, .str _ => false
  | .int a, .int b => a == b
  | .int a, .rat b => (a : Rat) == b
  | .int a, .bool b => a == (if b then 1 else 0)
  | .rat a, .int b => a == (b : Rat)
  | .rat a, .rat b => a == b
  | .rat a, .bool b => a == (if b then (1 : Rat) else 0)
  | .bool a, .int b => (if a then (1 : Int) else 0) == b
  | .bool a, .rat b => (if a then (1 : Rat) else 0) == b
  | .bool a, .bool b => a == b

/-- Elementwise `<`: numeric order on numbers, lexicographic on strings,
`False` whenever a NaN is involved. -/
def valLt (a b : Val) : Bool :=
  match a, b with
  | .str x, .str y => decide (x < y)
  | _, _ =>
    match valToRat a, valToRat b with
    | some x, some y => decide (x < y)
    | _, _ => false

/-- Elementwise `<=`. -/
def valLe (a b : Val) : Bool := valLt a b || valEq a b

/-- Elementwise addition with null propagation. Non-numeric operands never
reach arithmetic because `check_column_arith` coerces or fails first. -/
def valAdd : Val → Val → Val
  | .int a, .int b => .int (a + b)
  | .int a, .rat b => .rat ((a : Rat) + b)
  | .rat a, .int b => .rat (a + (b : Rat))
  | .rat a, .rat b => .rat (a + b)
  | _, _ => .null

/-- Elementwise subtraction with null propagation. -/
def valSub : Val → Val → Val
  | .int a, .int b => .int (a - b)
  | .int a, .rat b => .rat ((a : Rat) - b)
  | .rat a, .int b => .rat (a - (b : Rat))
  | .rat a, .rat b => .rat (a - b)
  | _, _ => .null

/-- Elementwise multiplication with null propagation. -/
def valMul : Val → Val → Val
  | .int a, .int b => .int (a * b)
  | .int a, .rat b => .rat ((a : Rat) * b)
  | .rat a, .int b => .rat (a * (b : Rat))
  | .rat a, .rat b => .rat (a * b)
  | _, _ => .null

/-- Elementwise true division: always produces a float (rational) value, as
pandas `/` does. Division by zero yields infinity in pandas; that corner is
not exercised by any claim and is left at the rational convention. -/
def valDiv : Val → Val → Val
  | .int a, .int b => .rat ((a : Rat) / (b : Rat))
  | .int a, .rat b => .rat ((a : Rat) / b)
  | .rat a, .int b => .rat (a / (b : Rat))
  | .rat a, .rat b => .rat (a / b)
  | _, _ => .null

/-- Elementwise modulo by an integer scalar (`Series.mod`); follows the
Python convention of a result with the sign of the divisor, which for the
positive divisors used here is `Int.emod`. -/
def valModScalar (m : Int) : Val → Val
  | .int a => .int (a % m)
  | .rat a => .rat (a - m * ((a / (m : Rat)).floor : Rat))
  | _ => .null

/-- Python `str(v)`. Floats are only stringified through rationals; no claim
stringifies a float value. -/
def pyStr : Val → String
  | .int n => toString n
  | .rat q => toString q
  | .str s => s
  | .bool b => if b then "True" else "False"
  | .null => "None"

/-- Python truthiness `bool(v)`: None, empty string, zero and False are
falsy. Missing values are modelled as None here; a float NaN would be truthy
in Python, a dtype corner not exercised by the claims. -/
def truthyVal : Val → Bool
  | .null => false
  | .bool b => b
  | .int n => !(n == 0)
  | .rat q => !(q == 0)
  | .str s => !(s == "")

/-- Decimal digit accumulator for `int(...)` parsing. -/
def parseDigits (acc : Nat) : List Char → Option Nat
  | [] => some acc
  | c :: tl => if c.isDigit then parseDigits (acc * 10 + (c.toNat - 48)) tl else none

/-- Python `int(s)` on a string: an optional sign followed by decimal digits;
anything else raises ValueError (modelled as `none`). -/
def parseIntStr (s : String) : Option Int :=
  match s.data with
  | [] => none
  | '-' :: tl => if tl.isEmpty then none else (parseDigits 0 tl).map (fun n => -(n : Int))
  | l => (parseDigits 0 l).map (fun n => (n : Int))

/-- `pd.to_numeric` on one cell: numbers and nulls pass through, numeric
strings parse (decimal-integer literals; float literals are not exercised by
the claims), anything else fails. -/
def toNumericVal : Val → Option Val
  | .int n => some (.int n)
  | .rat q => some (.rat q)
  | .null => some .null
  | .bool b => some (.int (if b then 1 else 0))
  | .str s => (parseIntStr s).map .int

/-- The pandas dtype of a column, as inferred from its values. -/
inductive DType where
  | int64
  | float64
  | boolDt
  | objectDt
deriving DecidableEq, Repr

/-- Dtype inference: all ints give int64; numerics with nulls or floats give
float64; all bools give bool; everything else is object. -/
def colDType (xs : List Val) : DType :=
  if xs.all (fun v => match v with | .int _ => true | _ => false) then .int64
  else if xs.all (fun v => match v with | .int _ | .rat _ | .null => true | _ => false) then .float64
  else if xs.all (fun v => match v with | .bool _ => true | _ => false) then .boolDt
  else .objectDt

/-- `str(dtype)` as pandas prints it. -/
def dtypeStr : DType → String
  | .int64 => "int64"
  | .float64 => "float64"
  | .boolDt => "bool"
  | .objectDt => "object"

/-! ## Tables and the registry -/

/-- First-match lookup in an association list of columns. -/
def getColList : List (String × List Val) → String → Option (List Val)
  | [], _ => none
  | p :: tl, c => if p.1 == c then some p.2 else getColList tl c

/-- Replace the named column in place, or append it at the end when absent
(`df[c] = xs`). -/
def setColList : List (String × List Val) → String → List Val → List (String × List Val)
  | [], c, xs => [(c, xs)]
  | p :: tl, c, xs => if p.1 == c then (c, xs) :: tl else p :: setColList tl c xs

/-- A DataFrame: an ordered association list of named columns. -/
structure Table where
  cols : List (String × List Val)
deriving DecidableEq, Repr

/-- `df.columns.tolist()`. -/
def Table.columnNames (t : Table) : List String := t.cols.map (fun p => p.1)

/-- `df[c]` as an optional column. -/
def Table.getCol (t : Table) (c : String) : Option (List Val) := getColList t.cols c

/-- `df[c] = xs`. -/
def Table.setCol (t : Table) (c : String) (xs : List Val) : Table := ⟨setColList t.cols c xs⟩

/-- `len(df)`: the row count, read off the first column. -/
def Table.nRows (t : Table) : Nat :=
  match t.cols with
  | [] => 0
  | p :: _ => p.2.length

/-- The DataFrame invariant: every column has the full row count. -/
@[reducible] def Table.Wf (t : Table) : Prop := ∀ p ∈ t.cols, p.2.length = t.nRows

/-- Python exceptions raised by the transformation rules. -/
inductive Err where
  | keyError (key : String)
  | valueError
  | typeError (msg : String)
  | nonNumericColumn (column : String)
  | unknownColumn (column : String) (valid : List String)
  | unsupportedAggregation (tag : String)
  | attributeError (attr : String)
  | nameError (nm : String)
  | queryParseError
  | indexError
  | emptyExpression
deriving DecidableEq, Repr

/-- The DataFlow registry: named materialized tables. -/
abbrev Registry := List (String × Table)

/-- `DataFlow.save_output_df`: unconditional overwrite under the name. -/
def save_output_df : Registry → Table → String → Registry
  | [], df, nm => [(nm, df)]
  | p :: tl, df, nm => if p.1 == nm then (nm, df) :: tl else p :: save_output_df tl df nm

/-- One rule execution against the registry: a successful `run` stores its
output table under the target name; a raised exception propagates and the
registry is left untouched. -/
def applyRuleStep (reg : Registry) (nm : String) (result : Except Err Table) :
    Registry × Option Err :=
  match result with
  | .ok df => (save_output_df reg df nm, none)
  | .error e => (reg, some e)

/-- Decidable equality of run results, so concrete runs can be checked by
`decide`. -/
instance {ε α : Type} [DecidableEq ε] [DecidableEq α] : DecidableEq (Except ε α) := fun x y =>
  match x, y with
  | .ok a, .ok b =>
    if h : a = b then isTrue (by rw [h]) else isFalse (fun hh => by cases hh; exact h rfl)
  | .error a, .error b =>
    if h : a = b then isTrue (by rw [h]) else isFalse (fun hh => by cases hh; exact h rfl)
  | .ok _, .error _ => isFalse (fun hh => by cases hh)
  | .error _, .ok _ => isFalse (fun hh => by cases hh)

/-- `Except`-valued map over a list, failing on the first error (the order in
which a Python loop would raise). -/
def mapExcept {α β : Type} (f : α → Except Err β) : List α → Except Err (List β)
  | [] => .ok []
  | a :: l =>
    match f a with
    | .error e => .error e
    | .ok b =>
      match mapExcept f l with
      | .error e => .error e
      | .ok bs => .ok (b :: bs)

/-- `Option`-valued map over a list. -/
def mapOption {α β : Type} (f : α → Option β) : List α → Option (List β)
  | [] => some []
  | a :: l =>
    match f a with
    | none => none
    | some b =>
      match mapOption f l with
      | none => none
      | some bs => some (b :: bs)

/-! ## Module constants -/

/-- `CHECK_CONDITIONS`. The source is missing a comma between the literals
before and after `contains`, so the two adjacent string literals concatenate
into a single malformed entry; the `++` below reproduces that. -/
def CHECK_CONDITIONS : List String :=
  ["==", "!=", ">", ">=", "<",
   "=<" ++ "contains",
   "does not contain", "starts with", "does not start with", "ends with"]

/-- `SUPPORTED_OPERATIONS`. -/
def SUPPORTED_OPERATIONS : List String := ["sum", "subtract", "multiply", "divide"]

/-! ## CalculatedColumn (Arithmetic Engine) -/

/-- The `CalculatedColumn` rule configuration. The expression is the ordered
list of (operation, column-name) pairs; `mod` models the optional modulo
scalar (`None` by default). -/
structure CalculatedColumn where
  base_column : String
  expression : List (String × String)
  axis : Nat := 0
  skipna : Bool := true
  mod : Option Int := none
deriving DecidableEq, Repr

/-- `_validate_expression`: the assert that the expression is non-empty; a
failing assert surfaces as the EmptyExpression error of the taxonomy. -/
def CalculatedColumn.validate_expression (r : CalculatedColumn) : Except Err Unit :=
  if r.expression.length > 0 then .ok () else .error .emptyExpression

/-- First-match lookup in the `df.dtypes` snapshot. -/
def lookupStr : List (String × String) → String → Option String
  | [], _ => none
  | p :: tl, k => if p.1 == k then some p.2 else lookupStr tl k

/-- The loop body of `check_column_arith`: for each requested column, look up
its dtype in the snapshot (`KeyError` when absent), and since the broken
substring test `str(col_dt) not in "int" or str(col_dt) not in "float"` is
true for every real dtype string, always attempt `pd.to_numeric`, failing
with the non-numeric-column TypeError when any cell cannot be coerced. -/
def checkColsGo (dt : List (String × String)) (d : Table) : List String → Except Err Table
  | [] => .ok d
  | col :: rest =>
    match lookupStr dt col with
    | none => .error (.keyError col)
    | some dtS =>
      if !(strHas "int" dtS) || !(strHas "float" dtS) then
        match d.getCol col with
        | none => .error (.keyError col)
        | some xs =>
          match mapOption toNumericVal xs with
          | some ys => checkColsGo dt (d.setCol col ys) rest
          | none => .error (.nonNumericColumn col)
      else checkColsGo dt d rest

/-- `CalculatedColumn.check_column_arith`: snapshot `df.dtypes`, then process
the listed columns. -/
def check_column_arith (df : Table) (column_names : List String) : Except Err Table :=
  checkColsGo (df.cols.map (fun p => (p.1, dtypeStr (colDType p.2)))) df column_names

/-- Shared shape of the four binary column operations: coerce both columns,
then combine them elementwise into the base column. -/
def binColumnOp (op : Val → Val → Val) (base other : String) (df : Table) :
    Except Err Table :=
  match check_column_arith df [base, other] with
  | .error e => .error e
  | .ok d =>
    match d.getCol base, d.getCol other with
    | some b, some a => .ok (d.setCol base (List.zipWith op b a))
    | _, _ => .error (.keyError base)

/-- `sum_columns`: `df[base] = df[base] + df[column_added]`. -/
def CalculatedColumn.sum_columns (r : CalculatedColumn) (df : Table) (column_added : String) :
    Except Err Table :=
  binColumnOp valAdd r.base_column column_added df

/-- `subtract_columns`: `df[base] = df[base] - df[column_subtracted]`. -/
def CalculatedColumn.subtract_columns (r : CalculatedColumn) (df : Table)
    (column_subtracted : String) : Except Err Table :=
  binColumnOp valSub r.base_column column_subtracted df

/-- `multiply_columns`: `df[base] = df[base] * df[column_multiplied]`. -/
def CalculatedColumn.multiply_columns (r : CalculatedColumn) (df : Table)
    (column_multiplied : String) : Except Err Table :=
  binColumnOp valMul r.base_column column_multiplied df

/-- `divide_columns`: `df[base] = df[base] / df[column_divisor]`. -/
def CalculatedColumn.divide_columns (r : CalculatedColumn) (df : Table)
    (column_divisor : String) : Except Err Table :=
  binColumnOp valDiv r.base_column column_divisor df

/-- `mod_column`: `.mod(self.mod)` into the named destination column, or into
the base column when the destination name is empty. With the default
`mod=None`, `Series.mod(None)` raises a TypeError. -/
def CalculatedColumn.mod_column (r : CalculatedColumn) (df : Table) (mod_col : String) :
    Except Err Table :=
  match check_column_arith df [r.base_column] with
  | .error e => .error e
  | .ok d =>
    match d.getCol r.base_column with
    | none => .error (.keyError r.base_column)
    | some xs =>
      match r.mod with
      | none => .error (.typeError "unsupported operand type for mod: NoneType")
      | some m =>
        let result := xs.map (valModScalar m)
        if mod_col ≠ "" then .ok (d.setCol mod_col result)
        else .ok (d.setCol r.base_column result)

/-- The running-sum loop of `Series.cumsum`. With `skipna` a null cell leaves
the accumulator unchanged (the output at that position is null); without
`skipna` the first null poisons every later position. -/
def cumsumGo (skipna : Bool) (acc : Val) : List Val → List Val
  | [] => []
  | x :: tl =>
    match x with
    | .null =>
      if skipna then Val.null :: cumsumGo skipna acc tl
      else Val.null :: tl.map (fun _ => Val.null)
    | v =>
      let acc2 := valAdd acc v
      acc2 :: cumsumGo skipna acc2 tl

/-- `Series.cumsum(skipna=...)`. The `axis` argument is irrelevant for a
one-dimensional Series. -/
def cumsumList (skipna : Bool) (xs : List Val) : List Val := cumsumGo skipna (Val.int 0) xs

/-- `cumsum_column`: coerce the base column, then write its cumulative sum
into the named destination column, or in place when the name is empty. -/
def CalculatedColumn.cumsum_column (r : CalculatedColumn) (df : Table) (cumsum_col : String) :
    Except Err Table :=
  match check_column_arith df [r.base_column] with
  | .error e => .error e
  | .ok d =>
    match d.getCol r.base_column with
    | none => .error (.keyError r.base_column)
    | some xs =>
      let result := cumsumList r.skipna xs
      if cumsum_col ≠ "" then .ok (d.setCol cumsum_col result)
      else .ok (d.setCol r.base_column result)

/-- The `operations` dictionary lookup inside `run`: it holds only `sum`,
`subtract`, `multiply` and `cumsum`, so any other tag — including `divide`
and `mod`, whose methods exist on the class — raises a KeyError. -/
def stepApply (r : CalculatedColumn) (df : Table) (operation column : String) :
    Except Err Table :=
  if operation = "sum" then r.sum_columns df column
  else if operation = "subtract" then r.subtract_columns df column
  else if operation = "multiply" then r.multiply_columns df column
  else if operation = "cumsum" then r.cumsum_column df column
  else .error (.keyError operation)

/-- The expression loop of `run`: each step consumes the table produced by
the previous step. -/
def runSteps (r : CalculatedColumn) (df : Table) : List (String × String) → Except Err Table
  | [] => .ok df
  | step :: rest =>
    match stepApply r df step.1 step.2 with
    | .ok d => runSteps r d rest
    | .error e => .error e

/-- `CalculatedColumn.run` on its input table: create the base column as
all-null when absent, then fold the expression steps left to right. -/
def CalculatedColumn.run (r : CalculatedColumn) (df : Table) : Except Err Table :=
  let df2 := if df.columnNames.contains r.base_column then df
             else df.setCol r.base_column (List.replicate df.nRows Val.null)
  runSteps r df2 r.expression

/-- Modelled from the spec: the `TransformationRule` execution harness lives
in `models.py`, which is not under src/; per the interface section the
configuration is "validated lazily on first run", so the harness invokes the
validation of the rule (here `_validate_expression`) before `run`. -/
def CalculatedColumn.runValidated (r : CalculatedColumn) (df : Table) : Except Err Table :=
  match r.validate_expression with
  | .error e => .error e
  | .ok _ => r.run df

/-- The named column of a run result, when the run succeeded. -/
def resCol (res : Except Err Table) (c : String) : Option (List Val) :=
  match res with
  | .ok t => t.getCol c
  | .error _ => none

/-! ## ConditionalFill (Predicate Compiler) -/

/-- The `ConditionalFill` rule configuration. -/
structure ConditionalFill where
  fill_column : String
  fill_value : Val
  where_column : String
  where_condition : String
  where_condition_values : List Val
deriving DecidableEq, Repr

/-- The negation test used when joining the per-value expressions:
`"!" in action or "not" in action`. -/
def hasNeg (action : String) : Bool := strHas action "!" || strHas action "not"

/-- The dtype the compiler consults for the target column
(`df[column].dtype`). -/
def dtypeOf (df : Table) (column : String) : DType :=
  match df.getCol column with
  | some xs => colDType xs
  | none => .objectDt

/-- The Python value spliced into the built expression string, after the
resolution and coercion steps of `_build_operator_expression`. -/
inductive PyOperand where
  | colRef (c : String)
  | quotedStr (s : String)
  | rawStr (s : String)
  | intLit (n : Int)
  | floatLit (q : Rat)
  | boolLit (b : Bool)
  | noneLit
deriving DecidableEq, Repr

/-- The `int(value)` coercion applied when the target column is int64 and the
value is not an int. Python bools are ints, so they pass untouched; the
column-reference marker is the literal text `df["..."]`, on which `int`
raises ValueError; `int(None)` raises TypeError. -/
def pyInt (p : PyOperand) : Except Err PyOperand :=
  match p with
  | .intLit n => .ok (.intLit n)
  | .boolLit b => .ok (.boolLit b)
  | .floatLit q => .ok (.intLit (Int.tdiv q.num (q.den : Int)))
  | .rawStr s =>
    match parseIntStr s with
    | some n => .ok (.intLit n)
    | none => .error .valueError
  | .quotedStr s =>
    match parseIntStr s with
    | some n => .ok (.intLit n)
    | none => .error .valueError
  | .colRef _ => .error .valueError
  | .noneLit => .error (.typeError "int() argument must not be NoneType")

/-- The `float(value)` coercion applied when the target column is float64 and
the value is not a float. -/
def pyFloat (p : PyOperand) : Except Err PyOperand :=
  match p with
  | .floatLit q => .ok (.floatLit q)
  | .intLit n => .ok (.floatLit (n : Rat))
  | .boolLit b => .ok (.floatLit (if b then 1 else 0))
  | .rawStr s =>
    match parseIntStr s with
    | some n => .ok (.floatLit (n : Rat))
    | none => .error .valueError
  | .quotedStr s =>
    match parseIntStr s with
    | some n => .ok (.floatLit (n : Rat))
    | none => .error .valueError
  | .colRef _ => .error .valueError
  | .noneLit => .error (.typeError "float() argument must not be NoneType")

/-- The per-value resolution of `_build_operator_expression`: a string naming
an existing column becomes a column reference; a string against an object
column becomes a quoted literal (the quote escaping only affects the built
text, not the literal value); then the int64/float64 coercions run in
sequence. A string that is neither a column nor quoted stays a raw token. -/
def resolveOperand (df : Table) (column : String) (value : Val) : Except Err PyOperand :=
  let dt := dtypeOf df column
  let p0 : PyOperand :=
    match value with
    | .str s =>
      if df.columnNames.contains s then .colRef s
      else if dt == .objectDt then .quotedStr s
      else .rawStr s
    | .int n => .intLit n
    | .rat q => .floatLit q
    | .bool b => .boolLit b
    | .null => .noneLit
  match (if dt == .int64 then pyInt p0 else .ok p0) with
  | .error e => .error e
  | .ok p1 =>
    match (if dt == .float64 then pyFloat p1 else .ok p1) with
    | .error e => .error e
    | .ok p2 => .ok p2

/-- The elementary comparison of the operator style: only `==` and `!=` are
dispatched to it. -/
def cmpOpVal (action : String) (a b : Val) : Bool :=
  if action = "==" then valEq a b
  else if action = "!=" then !(valEq a b)
  else false

/-- One evaluated elementary mask `(df[column] action value)`: a resolved
column reference compares elementwise against the other column, a literal
compares against every cell, and a raw unquoted token is an undefined name
when `eval` runs the built string. -/
def elementaryOpMask (df : Table) (column action : String) (value : Val) :
    Except Err (List Bool) :=
  match resolveOperand df column value with
  | .error e => .error e
  | .ok p =>
    match df.getCol column with
    | none => .error (.keyError column)
    | some xs =>
      match p with
      | .colRef c =>
        match df.getCol c with
        | some ys => .ok (List.zipWith (cmpOpVal action) xs ys)
        | none => .error (.keyError c)
      | .rawStr s => .error (.nameError s)
      | .quotedStr s => .ok (xs.map (fun a => cmpOpVal action a (.str s)))
      | .intLit n => .ok (xs.map (fun a => cmpOpVal action a (.int n)))
      | .floatLit q => .ok (xs.map (fun a => cmpOpVal action a (.rat q)))
      | .boolLit b => .ok (xs.map (fun a => cmpOpVal action a (.bool b)))
      | .noneLit => .ok (xs.map (fun a => cmpOpVal action a .null))

/-- Joining the per-value expressions: `" & "` when the action has a negation
marker, `" | "` otherwise. Joining an empty list builds the empty string,
whose `eval` is a syntax error. -/
def combineJoin (action : String) : List (List Bool) → Except Err (List Bool)
  | [] => .error .queryParseError
  | m :: ms =>
    .ok (if hasNeg action then ms.foldl (fun acc x => List.zipWith (fun a b => a && b) acc x) m
         else ms.foldl (fun acc x => List.zipWith (fun a b => a || b) acc x) m)

/-- `_build_operator_expression` followed by the `eval` of the built string:
the per-value elementary masks, combined by the operator-dependent join. -/
def buildOperatorMask (df : Table) (column action : String) (values : List Val) :
    Except Err (List Bool) :=
  match mapExcept (elementaryOpMask df column action) values with
  | .error e => .error e
  | .ok masks => combineJoin action masks

/-- The `string_methods` dictionary of `_build_pandas_expression`, mapping the
action to the `.str` method it compiles to. -/
def stringMethodsLookup (action : String) : Option String :=
  if action = "contains" then some "contains"
  else if action = "not contains" then some "contains"
  else if action = "startswith" then some "startswith"
  else if action = "not startswith" then some "startswith"
  else if action = "endswith" then some "endswith"
  else if action = "not endswith" then some "endswith"
  else none

/-- `df[column].str.method(value)` on one cell. -/
def strMethodApply (method : String) (cell pat : String) : Bool :=
  if method = "contains" then strHas cell pat
  else if method = "startswith" then strStarts cell pat
  else strEnds cell pat

/-- One cell of `(~df[column].str.method(value))`: the method result, negated
when the tilde is present; a non-string cell yields a missing result, a
corner not exercised by the claims and modelled as `none`. -/
def strCellMask (method : String) (neg : Bool) (pat : String) (cell : Val) : Option Bool :=
  match cell with
  | .str s => some (if neg then !(strMethodApply method s pat) else strMethodApply method s pat)
  | _ => none

/-- One elementary mask of `_build_string_expression`:
`(~df[column].str.method(value))` with the tilde present exactly when the
action contains `not`. A non-string pattern raises a TypeError in the `.str`
methods; that corner is not exercised by the claims and is modelled as an
error. -/
def elementaryStringMask (df : Table) (column action : String) (value : Val) :
    Except Err (List Bool) :=
  match stringMethodsLookup action with
  | none => .error (.keyError action)
  | some method =>
    match value with
    | .str pat =>
      match df.getCol column with
      | none => .error (.keyError column)
      | some xs =>
        match mapOption (strCellMask method (strHas action "not") pat) xs with
        | some m => .ok m
        | none => .error (.typeError "str accessor on non-string cell")
    | _ => .error (.typeError "expected a string pattern")

/-- `_build_string_expression` followed by `eval`: per-value masks combined
by the same operator-dependent join. -/
def buildStringMask (df : Table) (column action : String) (values : List Val) :
    Except Err (List Bool) :=
  match mapExcept (elementaryStringMask df column action) values with
  | .error e => .error e
  | .ok masks => combineJoin action masks

/-- `_build_pandas_expression` with the `eval` of its result: dispatch on the
action. In the invalid-action branch the source computes
`", ".join(operators + string_methods)` where `operators` is a list and
`string_methods` a dict, so that branch itself raises a TypeError. -/
def buildPandasMask (df : Table) (column action : String) (values : List Val) :
    Except Err (List Bool) :=
  if action = "==" || action = "!=" then buildOperatorMask df column action values
  else if (stringMethodsLookup action).isSome then buildStringMask df column action values
  else .error (.typeError "can only concatenate list (not dict) to list")

/-- `np.where(mask, fill_value, prior)`: elementwise select. The numpy dtype
unification of mixed fill/column types is a representation detail abstracted
away here. -/
def selectWhere (mask : List Bool) (fillValue : Val) (prior : List Val) : List Val :=
  List.zipWith (fun m p => if m then fillValue else p) mask prior

/-- `ConditionalFill.run` on its input table: check the where-column against
the available columns, compile and evaluate the mask, then assign the
ternary select into the fill column; reading an absent fill column on the
right-hand side raises a KeyError. -/
def ConditionalFill.run (r : ConditionalFill) (df : Table) : Except Err Table :=
  let availableColumns := df.columnNames
  if availableColumns.contains r.where_column = false then
    .error (.unknownColumn r.where_column availableColumns)
  else
    match buildPandasMask df r.where_column r.where_condition r.where_condition_values with
    | .error e => .error e
    | .ok mask =>
      match df.getCol r.fill_column with
      | none => .error (.keyError r.fill_column)
      | some prior => .ok (df.setCol r.fill_column (selectWhere mask r.fill_value prior))

/-! ## FilterBy -/

/-- The `FilterBy` rule configuration: one column, a list of conditions and a
positionally paired list of values. -/
structure FilterBy where
  column_name : String
  filter_conditions : List String
  condition_values : List Val
deriving DecidableEq, Repr

/-- The comparison used inside `df.query`. -/
def queryCmp (cond : String) (a b : Val) : Bool :=
  if cond = "==" then valEq a b
  else if cond = "!=" then !(valEq a b)
  else if cond = ">" then valLt b a
  else if cond = ">=" then valLe b a
  else valLt a b

/-- Keep the rows of the table selected by the boolean mask. -/
def applyMask (xs : List Val) (keep : List Bool) : List Val :=
  (List.zip xs keep).filterMap (fun p => if p.2 then some p.1 else none)

/-- Row selection by mask across every column. -/
def filterRows (t : Table) (keep : List Bool) : Table :=
  ⟨t.cols.map (fun p => (p.1, applyMask p.2 keep))⟩

/-- One `df.query('{column} {condition} {value}')` call. The value is spliced
with `str(value)`, so a string value appears unquoted: it resolves as another
column when one of that name exists and is an undefined name otherwise. The
`=<` token from `CHECK_CONDITIONS` is not valid query syntax. `str(None)`
splices the token `None`, which the query engine rejects. -/
def queryStep (df : Table) (column cond : String) (value : Val) : Except Err Table :=
  if cond = "=<" then .error .queryParseError
  else
    match df.getCol column with
    | none => .error (.nameError column)
    | some xs =>
      match value with
      | .str s =>
        match df.getCol s with
        | some ys => .ok (filterRows df (List.zipWith (queryCmp cond) xs ys))
        | none => .error (.nameError s)
      | .int n => .ok (filterRows df (xs.map (fun a => queryCmp cond a (.int n))))
      | .rat q => .ok (filterRows df (xs.map (fun a => queryCmp cond a (.rat q))))
      | .bool b => .ok (filterRows df (xs.map (fun a => queryCmp cond a (.bool b))))
      | .null => .error (.nameError "None")

/-- The loop body of `FilterBy.run` for one (condition, value) pair.
Comparison conditions go through `df.query`. The string-method branches call
`Series.contains` / `Series.startswith` / `Series.endswith`, attributes that
do not exist on a pandas Series (the `.str` accessor would be required, as
`ConditionalFill` uses), so they raise AttributeError. A condition matching
no branch — notably `does not end with`, which has no branch at all — falls
through the chain and leaves the table unchanged. -/
def filterStep (df : Table) (column condition : String) (value : Val) : Except Err Table :=
  if ["==", "!=", ">", ">=", "<", "=<"].contains condition then
    queryStep df column condition value
  else if condition = "contains" then .error (.attributeError "contains")
  else if condition = "starts with" then .error (.attributeError "startswith")
  else if condition = "ends with" then .error (.attributeError "endswith")
  else if condition = "does not contain" then .error (.attributeError "contains")
  else if condition = "does not start with" then .error (.attributeError "startswith")
  else .ok df

/-- The zipped loop of `FilterBy.run`. -/
def filterLoop (column : String) (df : Table) : List (String × Val) → Except Err Table
  | [] => .ok df
  | cv :: rest =>
    match filterStep df column cv.1 cv.2 with
    | .ok d => filterLoop column d rest
    | .error e => .error e

/-- `FilterBy.run` on its input table: apply each (condition, value) pair in
sequence, each step filtering the table the previous step produced. -/
def FilterBy.run (r : FilterBy) (df : Table) : Except Err Table :=
  filterLoop r.column_name df (r.filter_conditions.zip r.condition_values)

/-! ## PivotTable (Aggregation Engine) -/

/-- The `PivotTable` rule configuration. -/
structure PivotTable where
  group_columns : List String
  group_functions : List String
  group_values : List String
  preserve_order : Bool := true
deriving DecidableEq, Repr

/-- The requested-columns loop: the first requested column missing from the
available columns, if any. -/
def firstAbsentColumn (requested available : List String) : Option String :=
  match requested with
  | [] => none
  | c :: rest => if available.contains c then firstAbsentColumn rest available else some c

/-- First-occurrence de-duplication (`set(...)` iteration is unordered in
Python; the claims below never depend on the order of a multi-element set). -/
def dedupAcc {α : Type} [DecidableEq α] (seen : List α) : List α → List α
  | [] => []
  | a :: tl => if a ∈ seen then dedupAcc seen tl else a :: dedupAcc (a :: seen) tl

/-- De-duplicate keeping first occurrences. -/
def dedupFirst {α : Type} [DecidableEq α] (l : List α) : List α := dedupAcc [] l

/-- The custom `unique` aggregator:
`", ".join(set(str(v) for v in x if v))` — keep the truthy values, stringify
them, de-duplicate, and join. -/
def uniqueAgg (xs : List Val) : String :=
  String.intercalate ", " (dedupFirst ((xs.filter truthyVal).map pyStr))

/-- One aggregator application. The built-in pandas aggregator strings
(`sum`, `min`, ...) are passed to pandas unchanged by the source and are not
modelled here; only the custom `unique` aggregator is exercised by the
claims. -/
def applyAgg (fn : String) (xs : List Val) : Except Err Val :=
  if fn = "unique" then .ok (.str (uniqueAgg xs))
  else .error (.unsupportedAggregation fn)

/-- The values of `xs` at the rows whose grouping key equals `k`. -/
def selectByKey (keyRows : List (List Val)) (xs : List Val) (k : List Val) : List Val :=
  (List.zip keyRows xs).filterMap (fun p => if p.1 = k then some p.2 else none)

/-- Aggregate each value column: `group_functions[index]` raises an
IndexError when the function list is shorter than the value list. -/
def aggColumns (df : Table) (keyRows keys : List (List Val)) (fns : List String) :
    List (Nat × String) → Except Err (List (String × List Val))
  | [] => .ok []
  | ic :: rest =>
    match fns.get? ic.1 with
    | none => .error .indexError
    | some fn =>
      match df.getCol ic.2 with
      | none => .error (.keyError ic.2)
      | some xs =>
        match mapExcept (fun k => applyAgg fn (selectByKey keyRows xs k)) keys with
        | .error e => .error e
        | .ok agg =>
          match aggColumns df keyRows keys fns rest with
          | .error e => .error e
          | .ok restCols => .ok ((ic.2, agg) :: restCols)

/-- `PivotTable.run` on its input table: validate the requested columns, then
group by the key columns and aggregate each value column, restoring the key
columns as ordinary columns (`reset_index`). `pivot_table` emits the groups
in sorted key order; every claim below uses inputs whose first-occurrence
order coincides with the sorted order. -/
def PivotTable.run (p : PivotTable) (df : Table) : Except Err Table :=
  let availableColumns := df.columnNames
  let requested := p.group_columns ++ p.group_values
  match firstAbsentColumn requested availableColumns with
  | some c => .error (.unknownColumn c availableColumns)
  | none =>
    let keyRows := (List.range df.nRows).map
        (fun i => p.group_columns.map (fun c => ((df.getCol c).getD []).getD i Val.null))
    let keys := dedupFirst keyRows
    match aggColumns df keyRows keys p.group_functions p.group_values.enum with
    | .error e => .error e
    | .ok aggCols =>
      let keyCols := p.group_columns.enum.map
          (fun jg => (jg.2, keys.map (fun k => k.getD jg.1 Val.null)))
      .ok ⟨keyCols ++ aggCols⟩

/-! ## Concrete inputs used by the claims about CalculatedColumn -/

/-- Base `[2,4,6]`, operands `colX=[1,1,1]` and `colY=[10,10,10]`. -/
def tblC2 : Table :=
  ⟨[("base", [Val.int 2, Val.int 4, Val.int 6]),
    ("colX", [Val.int 1, Val.int 1, Val.int 1]),
    ("colY", [Val.int 10, Val.int 10, Val.int 10])]⟩

/-- The sequencing example: sum `colX`, then multiply `colY`. -/
def ccC2 : CalculatedColumn := ⟨"base", [("sum", "colX"), ("multiply", "colY")], 0, true, none⟩

/-- Base `[20,40,60]` with divisor column `colY=[10,10,10]`. -/
def tblC3 : Table :=
  ⟨[("base", [Val.int 20, Val.int 40, Val.int 60]),
    ("colY", [Val.int 10, Val.int 10, Val.int 10])]⟩

/-- A rule whose expression asks for a `divide` step. -/
def ccC3 : CalculatedColumn := ⟨"base", [("divide", "colY")], 0, true, none⟩

/-- A rule whose expression asks for a `mod` step. -/
def ccC3mod : CalculatedColumn := ⟨"base", [("mod", "m")], 0, true, some 3⟩

/-- The skip-null cumulative-sum input `[1, null, 3]`. -/
def tblC5 : Table := ⟨[("b", [Val.int 1, Val.null, Val.int 3])]⟩

/-- In-place cumulative sum over `b` with `skipna=True`. -/
def ccC5 : CalculatedColumn := ⟨"b", [("cumsum", "")], 0, true, none⟩

/-! ## Claim C2: strictly sequential evaluation of the expression -/

/-- Claim C2: `CalculatedColumn.run` evaluates the expression strictly
sequentially — running a concatenated expression list equals running the
first part and feeding its output table into the second part, so step i
consumes the base column as mutated by step i-1. On base `[2,4,6]` with
`[(sum, colX=[1,1,1]), (multiply, colY=[10,10,10])]` the run yields
`[30,50,70]`, which differs from the application of either single step to
the original base column (`[3,5,7]` and `[20,40,60]`). -/
theorem calculatedColumn_sequential_evaluation :
    (∀ (r : CalculatedColumn) (df : Table) (e1 e2 : List (String × String)),
      runSteps r df (e1 ++ e2) = (runSteps r df e1).bind (fun d => runSteps r d e2))
    ∧ resCol (ccC2.run tblC2) "base" = some [Val.int 30, Val.int 50, Val.int 70]
    ∧ resCol (runSteps ccC2 tblC2 [("sum", "colX")]) "base"
        = some [Val.int 3, Val.int 5, Val.int 7]
    ∧ resCol (runSteps ccC2 tblC2 [("multiply", "colY")]) "base"
        = some [Val.int 20, Val.int 40, Val.int 60]
    ∧ some [Val.int 30, Val.int 50, Val.int 70] ≠ some [Val.int 3, Val.int 5, Val.int 7]
    ∧ some [Val.int 30, Val.int 50, Val.int 70] ≠ some [Val.int 20, Val.int 40, Val.int 60] := by
  refine ⟨?_, by decide, by decide, by decide, by decide, by decide⟩
  intro r df e1 e2
  induction e1 generalizing df with
  | nil => rfl
  | cons s tl ih =>
    show (match stepApply r df s.1 s.2 with
          | .ok d => runSteps r d (tl ++ e2)
          | .error e => .error e) = _
    cases hs : stepApply r df s.1 s.2 with
    | ok d => simp [runSteps, hs, ih]
    | error e => simp [runSteps, hs, Except.bind]

/-! ## Claim C3: the run dispatch does not wire divide (or mod) -/

/-- Claim C3 (code bug): the `operations` dictionary in
`CalculatedColumn.run` has no `divide` (nor `mod`) entry, so an expression
step tagged `divide` raises a KeyError instead of applying the element-wise
quotient — even though `SUPPORTED_OPERATIONS` and the class docstring list
`divide` as supported and the `divide_columns` method exists and computes
exactly that quotient. -/
theorem calculatedColumn_divide_unwired :
    ccC3.run tblC3 = Except.error (Err.keyError "divide")
    ∧ ccC3mod.run tblC3 = Except.error (Err.keyError "mod")
    ∧ SUPPORTED_OPERATIONS.contains "divide" = true
    ∧ resCol (ccC3.divide_columns tblC3 "colY") "base"
        = some [valDiv (Val.int 20) (Val.int 10), valDiv (Val.int 40) (Val.int 10),
                valDiv (Val.int 60) (Val.int 10)]
    ∧ valDiv (Val.int 20) (Val.int 10) = Val.rat 2 := by
  refine ⟨by decide, by decide, by decide, by rfl, ?_⟩
  simp only [valDiv]
  norm_num

/-! ## Claim C4: empty expression fails with EmptyExpression -/

/-- Claim C4: running a `CalculatedColumn` whose expression is empty fails
with EmptyExpression and performs no transformation, for every input table.
The validation (`_validate_expression`) lives in the source; its invocation
before `run` is the rule-execution harness of `models.py`, modelled from the
spec (see `CalculatedColumn.runValidated`). -/
theorem calculatedColumn_empty_expression (r : CalculatedColumn) (df : Table)
    (h : r.expression = []) :
    r.runValidated df = Except.error Err.emptyExpression := by
  simp [CalculatedColumn.runValidated, CalculatedColumn.validate_expression, h]

/-- Witness for C4 at a concrete rule and table. -/
theorem calculatedColumn_empty_expression_witness :
    CalculatedColumn.runValidated ⟨"b", [], 0, true, none⟩ ⟨[("x", [Val.int 1])]⟩
      = Except.error Err.emptyExpression :=
  calculatedColumn_empty_expression ⟨"b", [], 0, true, none⟩ ⟨[("x", [Val.int 1])]⟩ rfl

/-! ## Claim C5: cumulative sum with skip-null -/

/-- Counterexample to claim C5 as stated: over `[1, null, 3]` with skip-null
enabled the code produces `[1, null, 4]` — the null position stays null — not
the claimed `[1, 1, 4]`. -/
theorem cumsum_skipna_counterexample :
    resCol (ccC5.run tblC5) "b" = some [Val.int 1, Val.null, Val.int 4]
    ∧ some [Val.int 1, Val.null, Val.int 4] ≠ some [Val.int 1, Val.int 1, Val.int 4] := by
  decide

/-- Claim C5 as amended: with skip-null enabled a null element does not
contribute to later sums (the accumulator passes over it unchanged), but the
output at the null position is null; over `[1, null, 3]` the result is
`[1, null, 4]`. -/
theorem cumsum_skipna_null_position :
    (∀ (acc : Val) (ys : List Val),
      cumsumGo true acc (Val.null :: ys) = Val.null :: cumsumGo true acc ys)
    ∧ resCol (ccC5.run tblC5) "b" = some [Val.int 1, Val.null, Val.int 4] :=
  ⟨fun _ _ => rfl, by decide⟩

/-! ## Claim C6: best-effort numeric coercion with NonNumericColumn failure -/

/-- The dtype lookup over the snapshot built by `check_column_arith` agrees
with the column lookup. -/
theorem lookupStr_map_dtypes (cols : List (String × List Val)) (c : String) (xs : List Val)
    (h : getColList cols c = some xs) :
    lookupStr (cols.map (fun p => (p.1, dtypeStr (colDType p.2)))) c
      = some (dtypeStr (colDType xs)) := by
  induction cols with
  | nil => simp [getColList] at h
  | cons p tl ih =>
    simp only [getColList] at h
    simp only [List.map_cons, lookupStr]
    cases hpc : (p.1 == c) with
    | true => simp [hpc] at h ⊢; rw [h]
    | false => simp [hpc] at h ⊢; exact ih h

/-- The broken substring test of `check_column_arith` is true for every
dtype string, so coercion is always attempted. -/
theorem dtype_condition_true (d : DType) :
    (!(strHas "int" (dtypeStr d)) || !(strHas "float" (dtypeStr d))) = true := by
  cases d <;> decide

/-- Claim C6: for a column that is not already numeric,
`check_column_arith` attempts the `pd.to_numeric` coercion; when every cell
coerces the column is replaced by the coerced values, and when coercion
fails the call fails with the non-numeric-column error naming the column. -/
theorem checkColumnArith_nonnumeric (df : Table) (col : String) (xs : List Val)
    (hcol : df.getCol col = some xs)
    (hnn : colDType xs ≠ DType.int64 ∧ colDType xs ≠ DType.float64) :
    check_column_arith df [col] =
      (match mapOption toNumericVal xs with
       | some ys => Except.ok (df.setCol col ys)
       | none => Except.error (Err.nonNumericColumn col)) := by
  unfold check_column_arith checkColsGo
  rw [lookupStr_map_dtypes df.cols col xs hcol]
  simp only [dtype_condition_true, if_true, hcol]
  cases h2 : mapOption toNumericVal xs with
  | none => rfl
  | some ys => rfl

/-- Witness for C6: a string column that cannot be coerced fails naming the
column. -/
theorem checkColumnArith_nonnumeric_witness :
    check_column_arith ⟨[("s", [Val.str "abc"])]⟩ ["s"]
      = Except.error (Err.nonNumericColumn "s") := by
  have h := checkColumnArith_nonnumeric ⟨[("s", [Val.str "abc"])]⟩ "s" [Val.str "abc"]
    (by decide) (by decide)
  exact h.trans (by decide)

/-! ## Claim C1: operator-dependent AND/OR combination of multi-value masks -/

/-- The operator and string-method actions that can reach the expression
builders of `ConditionalFill`. -/
def validFillActions : List String :=
  ["==", "!=", "contains", "not contains", "startswith", "not startswith",
   "endswith", "not endswith"]

/-- Pointwise negation distributes over `zipWith`. -/
theorem zipWith_not_eq_map (f : Val → Val → Bool) (xs ys : List Val) :
    List.zipWith (fun a b => !(f a b)) xs ys
      = (List.zipWith f xs ys).map (fun b => !b) := by
  induction xs generalizing ys with
  | nil => simp
  | cons a as ih =>
    cases ys with
    | nil => simp
    | cons b bs => simp [ih]

/-- The `==` comparison dispatch is elementwise equality. -/
theorem cmpOpVal_eq_def : cmpOpVal "==" = valEq := by
  funext a b
  rfl

/-- The `!=` comparison dispatch is pointwise negated equality. -/
theorem cmpOpVal_ne_def : cmpOpVal "!=" = fun a b => !(valEq a b) := by
  funext a b
  rfl

/-- The elementary mask of `!=` is the pointwise negation of the elementary
mask of `==` (the value resolution does not depend on the action). -/
theorem elementaryOpMask_ne (df : Table) (column : String) (v : Val) :
    elementaryOpMask df column "!=" v =
      match elementaryOpMask df column "==" v with
      | .ok m => .ok (m.map (fun b => !b))
      | .error e => .error e := by
  unfold elementaryOpMask
  cases hr : resolveOperand df column v with
  | error e => rfl
  | ok p =>
    cases hx : df.getCol column with
    | none => cases p <;> rfl
    | some xs =>
      cases p with
      | colRef c2 =>
        cases hy : df.getCol c2 with
        | none => simp [hy]
        | some ys => simp [hy, cmpOpVal_ne_def, cmpOpVal_eq_def, zipWith_not_eq_map]
      | rawStr s => rfl
      | quotedStr s => simp [cmpOpVal, List.map_map, Function.comp]
      | intLit n => simp [cmpOpVal, List.map_map, Function.comp]
      | floatLit q => simp [cmpOpVal, List.map_map, Function.comp]
      | boolLit b => simp [cmpOpVal, List.map_map, Function.comp]
      | noneLit => simp [cmpOpVal, List.map_map, Function.comp]

/-- AND-combining two negated masks equals the pointwise
`NOT(a) AND NOT(b)` form. -/
theorem zipWith_and_map_not (eA eB : List Bool) :
    List.zipWith (fun a b => a && b) (eA.map (fun x => !x)) (eB.map (fun x => !x))
      = List.zipWith (fun a b => !a && !b) eA eB := by
  induction eA generalizing eB with
  | nil => simp
  | cons a as ih =>
    cases eB with
    | nil => simp
    | cons b bs => simp [ih]

/-- The concrete column `[1,2,3]` used to exhibit the AND/OR difference. -/
def dfC1 : Table := ⟨[("c", [Val.int 1, Val.int 2, Val.int 3])]⟩

/-- Claim C1: for a compiled predicate over a column, an action and a list of
comparison values, the per-value elementary masks are joined with logical AND
exactly when the action carries a negation marker and with logical OR
otherwise — in both the operator builder and the string-method builder; on
the valid action set the negation test of the code coincides with
"the action is `!=` or contains the word not"; and for `!=` with values
`[A, B]` the compiled mask is pointwise `NOT(row==A) AND NOT(row==B)`, which
on the concrete column `[1,2,3]` gives `[false,false,true]`, differing from
the OR combination `[true,true,true]` of the same negated elementary
masks. -/
theorem conditionalFill_value_combination
    (df : Table) (column action : String) (values : List Val)
    (m : List Bool) (ms : List (List Bool))
    (h2 : 2 ≤ values.length)
    (hok : mapExcept (elementaryOpMask df column action) values = Except.ok (m :: ms)) :
    (buildOperatorMask df column action values =
      Except.ok (if hasNeg action
                 then ms.foldl (fun acc x => List.zipWith (fun a b => a && b) acc x) m
                 else ms.foldl (fun acc x => List.zipWith (fun a b => a || b) acc x) m))
    ∧ (∀ a ∈ validFillActions, hasNeg a = (a == "!=" || strHas a "not"))
    ∧ (∀ (A B : Val) (eA eB : List Bool),
        elementaryOpMask df column "==" A = Except.ok eA →
        elementaryOpMask df column "==" B = Except.ok eB →
        buildOperatorMask df column "!=" [A, B] =
          Except.ok (List.zipWith (fun a b => !a && !b) eA eB))
    ∧ (∀ (sm : List Bool) (sms : List (List Bool)) (svalues : List Val),
        mapExcept (elementaryStringMask df column action) svalues = Except.ok (sm :: sms) →
        buildStringMask df column action svalues =
          Except.ok (if hasNeg action
                     then sms.foldl (fun acc x => List.zipWith (fun a b => a && b) acc x) sm
                     else sms.foldl (fun acc x => List.zipWith (fun a b => a || b) acc x) sm))
    ∧ (buildOperatorMask dfC1 "c" "!=" [Val.int 1, Val.int 2]
         = Except.ok [false, false, true]
       ∧ [false, false, true] ≠ [true, true, true]
       ∧ List.zipWith (fun a b => a || b)
           ([true, false, false].map (fun x => !x)) ([false, true, false].map (fun x => !x))
           = [true, true, true]) := by
  refine ⟨?_, by decide, ?_, ?_, by decide, by decide, by decide⟩
  · unfold buildOperatorMask
    rw [hok]
    rfl
  · intro A B eA eB hA hB
    have hA2 : elementaryOpMask df column "!=" A = Except.ok (eA.map (fun x => !x)) := by
      rw [elementaryOpMask_ne, hA]
    have hB2 : elementaryOpMask df column "!=" B = Except.ok (eB.map (fun x => !x)) := by
      rw [elementaryOpMask_ne, hB]
    unfold buildOperatorMask mapExcept mapExcept
    rw [hA2, hB2]
    show combineJoin "!=" [eA.map (fun x => !x), eB.map (fun x => !x)] = _
    unfold combineJoin
    have hneg : hasNeg "!=" = true := by decide
    rw [hneg]
    simp only [if_true, List.foldl]
    rw [zipWith_and_map_not]
  · intro sm sms svalues hok2
    unfold buildStringMask
    rw [hok2]
    rfl

/-- Witness for C1 at a concrete table, action and two-value list. -/
theorem conditionalFill_value_combination_witness :
    buildOperatorMask dfC1 "c" "==" [Val.int 1, Val.int 2]
      = Except.ok [true, true, false] := by
  have h := (conditionalFill_value_combination dfC1 "c" "==" [Val.int 1, Val.int 2]
      [true, false, false] [[false, true, false]] (by decide) (by decide)).1
  rw [h]
  decide

/-! ## Claim C7: unknown columns, fail-fast, and the unchecked fill column -/

/-- A fill into the absent column `zz`, conditioned on the present column
`c`. -/
def cfC7 : ConditionalFill := ⟨"zz", Val.str "F", "c", "==", [Val.int 1]⟩

/-- The two-row table with the single column `c`. -/
def tblC7 : Table := ⟨[("c", [Val.int 1, Val.int 2])]⟩

/-- Counterexample to C7 as stated: `ConditionalFill` never checks its
`fill_column`; with the absent fill column `zz` the run fails with a plain
KeyError that names no valid columns (and only after the mask over the rows
has been evaluated), not with the UnknownColumn error listing the valid
column names that the claim promises for every rule configuration naming an
absent column. -/
theorem conditionalFill_fill_column_keyerror :
    cfC7.run tblC7 = Except.error (Err.keyError "zz")
    ∧ tblC7.columnNames.contains "zz" = false
    ∧ Err.keyError "zz" ≠ Err.unknownColumn "zz" tblC7.columnNames := by
  decide

/-- A rule whose where-column `w` is absent from the table. -/
def cfC7w : ConditionalFill := ⟨"f", Val.str "F", "w", "==", [Val.int 1]⟩

/-- A pivot whose group column `g` is absent from the table. -/
def pvC7w : PivotTable := ⟨["g"], ["unique"], ["v"], true⟩

/-- The one-column table used by the C7 witness. -/
def tblC7w : Table := ⟨[("c", [Val.int 1])]⟩

/-- Claim C7 as amended: for the columns the rules actually check — the
where-column of `ConditionalFill` and the requested group/value columns of
`PivotTable` — an absent column fails with UnknownColumn listing the valid
column names, before any row is processed, and the registry entry under the
target output name is left unmodified; the fill column of `ConditionalFill`
is outside this guarantee. -/
theorem unknown_column_fail_fast :
    (∀ (r : ConditionalFill) (df : Table) (reg : Registry) (nm : String),
      df.columnNames.contains r.where_column = false →
        r.run df = Except.error (Err.unknownColumn r.where_column df.columnNames)
        ∧ applyRuleStep reg nm (r.run df)
            = (reg, some (Err.unknownColumn r.where_column df.columnNames)))
    ∧ (∀ (p : PivotTable) (df : Table) (reg : Registry) (nm : String) (c : String),
      firstAbsentColumn (p.group_columns ++ p.group_values) df.columnNames = some c →
        p.run df = Except.error (Err.unknownColumn c df.columnNames)
        ∧ applyRuleStep reg nm (p.run df)
            = (reg, some (Err.unknownColumn c df.columnNames))) := by
  constructor
  · intro r df reg nm h
    have hrun : r.run df = Except.error (Err.unknownColumn r.where_column df.columnNames) := by
      unfold ConditionalFill.run
      exact if_pos h
    exact ⟨hrun, by rw [hrun]; rfl⟩
  · intro p df reg nm c h
    have hrun : p.run df = Except.error (Err.unknownColumn c df.columnNames) := by
      unfold PivotTable.run
      simp only []
      rw [h]
    exact ⟨hrun, by rw [hrun]; rfl⟩

/-- Witness for C7 at a concrete table, fill rule and pivot rule. -/
theorem unknown_column_fail_fast_witness :
    cfC7w.run tblC7w = Except.error (Err.unknownColumn "w" ["c"])
    ∧ pvC7w.run tblC7w = Except.error (Err.unknownColumn "g" ["c"]) := by
  have h1 := (unknown_column_fail_fast.1 cfC7w tblC7w [] "out" (by decide)).1
  have h2 := (unknown_column_fail_fast.2 pvC7w tblC7w [] "out" "g" (by decide)).1
  exact ⟨h1.trans (by decide), h2.trans (by decide)⟩

/-! ## Claim C8: the unique aggregator -/

/-- Keys `(g,g,h)` with an extra column and values `(a,a,b)`. -/
def tblC8 : Table :=
  ⟨[("k", [Val.str "g", Val.str "g", Val.str "h"]),
    ("x2", [Val.str "x", Val.str "y", Val.str "x"]),
    ("v", [Val.str "a", Val.str "a", Val.str "b"])]⟩

/-- Group by `k`, aggregate `v` with `unique`. -/
def pvC8 : PivotTable := ⟨["k"], ["unique"], ["v"], true⟩

/-- One group with the values `[0, 5]`. -/
def tblC8c : Table :=
  ⟨[("k", [Val.str "g", Val.str "g"]), ("v", [Val.int 0, Val.int 5])]⟩

/-- Group by `k`, aggregate `v` with `unique`, over the zero-holding group. -/
def pvC8c : PivotTable := ⟨["k"], ["unique"], ["v"], true⟩

/-- Counterexample to C8 as stated: the `unique` aggregator filters with
Python truthiness (`if v`), so over the group values `[0, 5]` it yields
`"5"` — the non-null, non-empty stringified value `"0"` is excluded —
whereas the claim (joined set of distinct non-null, non-empty stringified
values with no further exclusions) requires `"0, 5"` or `"5, 0"`. -/
theorem unique_excludes_zero_counterexample :
    pvC8c.run tblC8c = Except.ok ⟨[("k", [Val.str "g"]), ("v", [Val.str "5"])]⟩
    ∧ Val.str "5" ≠ Val.str "0, 5"
    ∧ Val.str "5" ≠ Val.str "5, 0" := by
  decide

/-- Claim C8 as amended: the `unique` aggregator yields the comma-and-space
joined set of the distinct stringified truthy values of the group — every
falsy value (null, empty string, numeric zero, False) is a non-contributing
element — and on grouping keys `(g,g,h)` with values `(a,a,b)` it yields
`g -> "a"` and `h -> "b"`. -/
theorem unique_truthy_filter :
    (∀ (v : Val) (xs : List Val), truthyVal v = false → uniqueAgg (v :: xs) = uniqueAgg xs)
    ∧ pvC8.run tblC8
        = Except.ok ⟨[("k", [Val.str "g", Val.str "h"]),
                      ("v", [Val.str "a", Val.str "b"])]⟩ := by
  constructor
  · intro v xs h
    simp [uniqueAgg, List.filter_cons, h]
  · decide

/-- Witness for C8: the falsy value zero contributes nothing to the join. -/
theorem unique_truthy_filter_witness :
    uniqueAgg [Val.int 0, Val.str "a"] = uniqueAgg [Val.str "a"] :=
  unique_truthy_filter.1 (Val.int 0) [Val.str "a"] (by decide)

/-! ## Claim C9: the FilterBy string-method operators -/

/-- A table whose first row ends in `x`. -/
def tblC9 : Table := ⟨[("c", [Val.str "ax", Val.str "b"])]⟩

/-- A `does not end with x` filter. -/
def fbC9 : FilterBy := ⟨"c", ["does not end with"], [Val.str "x"]⟩

/-- An `ends with x` filter. -/
def fbC9e : FilterBy := ⟨"c", ["ends with"], [Val.str "x"]⟩

/-- A numeric table for the sequential-narrowing part. -/
def tblC9n : Table := ⟨[("n", [Val.int 0, Val.int 2, Val.int 7, Val.int 4])]⟩

/-- Two successive comparison filters `> 1` then `< 5`. -/
def fbC9s : FilterBy := ⟨"n", [">", "<"], [Val.int 1, Val.int 5]⟩

/-- Claim C9 (code bug): `FilterBy.run` has no branch for
`does not end with`, so that step is a silent no-op — the row `ax`, which
ends with `x`, survives — and the positive string branches call
`Series.endswith` (and `.contains` / `.startswith`), attributes a pandas
Series does not have, so they raise AttributeError instead of filtering.
Successive comparison steps do narrow the row set sequentially
(`> 1` then `< 5` keeps exactly `[2, 4]`). -/
theorem filterBy_does_not_end_with_noop :
    fbC9.run tblC9 = Except.ok tblC9
    ∧ fbC9e.run tblC9 = Except.error (Err.attributeError "endswith")
    ∧ fbC9s.run tblC9n = Except.ok ⟨[("n", [Val.int 2, Val.int 4])]⟩
    ∧ strEnds "ax" "x" = true := by
  decide

/-! ## Claim C10: ConditionalFill modifies at most the fill column -/

/-- Reading back the column just written. -/
theorem getColList_setColList_self (cols : List (String × List Val)) (c : String)
    (xs : List Val) :
    getColList (setColList cols c xs) c = some xs := by
  induction cols with
  | nil => simp [setColList, getColList]
  | cons p tl ih =>
    simp only [setColList]
    cases hpc : (p.1 == c) with
    | true => simp [getColList]
    | false => simp [getColList, hpc, ih]

/-- Writing one column leaves every other column untouched. -/
theorem getColList_setColList_ne (cols : List (String × List Val)) (c c2 : String)
    (xs : List Val) (h : c ≠ c2) :
    getColList (setColList cols c2 xs) c = getColList cols c := by
  have hcc : (c2 == c) = false := beq_eq_false_iff_ne.mpr (Ne.symm h)
  induction cols with
  | nil => simp [setColList, getColList, hcc]
  | cons p tl ih =>
    cases hpc : (p.1 == c2) with
    | true =>
      have hp1 : p.1 = c2 := eq_of_beq hpc
      have hpcc : (p.1 == c) = false := by rw [hp1]; exact hcc
      simp [setColList, getColList, hpc, hcc, hpcc]
    | false => simp [setColList, getColList, hpc, ih]

/-- A column produced by lookup is one of the table entries. -/
theorem getColList_mem (cols : List (String × List Val)) (c : String) (ys : List Val)
    (h : getColList cols c = some ys) : ∃ nm, (nm, ys) ∈ cols := by
  induction cols with
  | nil => simp [getColList] at h
  | cons p tl ih =>
    cases hpc : (p.1 == c) with
    | true =>
      simp [getColList, hpc] at h
      subst h
      exact ⟨p.1, by simp⟩
    | false =>
      simp [getColList, hpc] at h
      obtain ⟨nm, hm⟩ := ih h
      exact ⟨nm, List.mem_cons_of_mem p hm⟩

/-- In a well-formed table every column read has the full row count. -/
theorem wf_getCol_length (t : Table) (hwf : t.Wf) (c : String) (ys : List Val)
    (h : t.getCol c = some ys) : ys.length = t.nRows := by
  obtain ⟨nm, hm⟩ := getColList_mem t.cols c ys h
  exact hwf (nm, ys) hm

/-- Replacing an existing column with one of equal length preserves the row
count. -/
theorem nRows_setCol (t : Table) (c : String) (xs ys : List Val)
    (h : t.getCol c = some ys) (hlen : xs.length = ys.length) :
    (t.setCol c xs).nRows = t.nRows := by
  cases t with
  | mk cols =>
    cases cols with
    | nil => simp [Table.getCol, getColList] at h
    | cons p tl =>
      cases hpc : (p.1 == c) with
      | true =>
        simp [Table.getCol, getColList, hpc] at h
        simp [Table.setCol, setColList, hpc, Table.nRows, hlen, h]
      | false => simp [Table.setCol, setColList, hpc, Table.nRows]

/-- A successful `mapOption` preserves length. -/
theorem mapOption_length {α β : Type} (f : α → Option β) (l : List α) (bs : List β)
    (h : mapOption f l = some bs) : bs.length = l.length := by
  induction l generalizing bs with
  | nil =>
    simp [mapOption] at h
    subst h
    rfl
  | cons a tl ih =>
    cases hfa : f a with
    | none => simp [mapOption, hfa] at h
    | some b =>
      cases hm : mapOption f tl with
      | none => simp [mapOption, hfa, hm] at h
      | some bs0 =>
        simp [mapOption, hfa, hm] at h
        subst h
        simp [ih bs0 hm]

/-- Every element of a successful `mapExcept` is the image of a list
element. -/
theorem mapExcept_ok_mem {α β : Type} (f : α → Except Err β) (l : List α) (bs : List β)
    (h : mapExcept f l = Except.ok bs) : ∀ b ∈ bs, ∃ a ∈ l, f a = Except.ok b := by
  induction l generalizing bs with
  | nil =>
    simp [mapExcept] at h
    subst h
    simp
  | cons a tl ih =>
    cases hfa : f a with
    | error e => simp [mapExcept, hfa] at h
    | ok b0 =>
      cases hm : mapExcept f tl with
      | error e => simp [mapExcept, hfa, hm] at h
      | ok bs0 =>
        simp [mapExcept, hfa, hm] at h
        subst h
        intro b hb
        cases List.mem_cons.mp hb with
        | inl heq => exact ⟨a, List.mem_cons_self a tl, by rw [heq]; exact hfa⟩
        | inr hmem =>
          obtain ⟨a2, ha2, hfa2⟩ := ih bs0 hm b hmem
          exact ⟨a2, List.mem_cons_of_mem a ha2, hfa2⟩

/-- A successful elementary operator mask has the length of the target
column. -/
theorem elementaryOpMask_length (df : Table) (hwf : df.Wf) (column action : String)
    (v : Val) (m : List Bool) (h : elementaryOpMask df column action v = Except.ok m) :
    ∃ xs, df.getCol column = some xs ∧ m.length = xs.length := by
  cases hr : resolveOperand df column v with
  | error e => simp [elementaryOpMask, hr] at h
  | ok p =>
    cases hx : df.getCol column with
    | none => simp [elementaryOpMask, hr, hx] at h
    | some xs =>
      refine ⟨xs, rfl, ?_⟩
      cases p with
      | colRef c2 =>
        cases hy : df.getCol c2 with
        | none => simp [elementaryOpMask, hr, hx, hy] at h
        | some ys =>
          simp [elementaryOpMask, hr, hx, hy] at h
          have hxl := wf_getCol_length df hwf column xs hx
          have hyl := wf_getCol_length df hwf c2 ys hy
          subst h
          simp [List.length_zipWith, hxl, hyl]
      | rawStr s => simp [elementaryOpMask, hr, hx] at h
      | quotedStr s =>
        simp [elementaryOpMask, hr, hx] at h
        subst h
        simp
      | intLit n =>
        simp [elementaryOpMask, hr, hx] at h
        subst h
        simp
      | floatLit q =>
        simp [elementaryOpMask, hr, hx] at h
        subst h
        simp
      | boolLit b =>
        simp [elementaryOpMask, hr, hx] at h
        subst h
        simp
      | noneLit =>
        simp [elementaryOpMask, hr, hx] at h
        subst h
        simp

/-- A successful elementary string mask has the length of the target
column. -/
theorem elementaryStringMask_length (df : Table) (column action : String)
    (v : Val) (m : List Bool) (h : elementaryStringMask df column action v = Except.ok m) :
    ∃ xs, df.getCol column = some xs ∧ m.length = xs.length := by
  cases hsm : stringMethodsLookup action with
  | none => simp [elementaryStringMask, hsm] at h
  | some method =>
    cases v with
    | str pat =>
      cases hx : df.getCol column with
      | none => simp [elementaryStringMask, hsm, hx] at h
      | some xs =>
        refine ⟨xs, rfl, ?_⟩
        cases hmo : mapOption (strCellMask method (strHas action "not") pat) xs with
        | none => simp [elementaryStringMask, hsm, hx, hmo] at h
        | some m2 =>
          simp [elementaryStringMask, hsm, hx, hmo] at h
          subst h
          exact mapOption_length _ xs m2 hmo
    | int n => simp [elementaryStringMask, hsm] at h
    | rat q => simp [elementaryStringMask, hsm] at h
    | bool b => simp [elementaryStringMask, hsm] at h
    | null => simp [elementaryStringMask, hsm] at h

/-- Folding masks of one length with `zipWith` keeps that length. -/
theorem foldl_zipWith_length (g : Bool → Bool → Bool) (n : Nat) (ms : List (List Bool))
    (m : List Bool) (hm : m.length = n) (hms : ∀ x ∈ ms, x.length = n) :
    (ms.foldl (fun acc x => List.zipWith g acc x) m).length = n := by
  induction ms generalizing m with
  | nil => simpa using hm
  | cons x tl ih =>
    have hx := hms x (List.mem_cons_self x tl)
    simp only [List.foldl]
    exact ih (List.zipWith g m x) (by simp [List.length_zipWith, hm, hx])
      (fun y hy => hms y (List.mem_cons_of_mem x hy))

/-- A successful operator-style compiled mask has the length of the target
column. -/
theorem buildOperatorMask_length (df : Table) (hwf : df.Wf) (column action : String)
    (values : List Val) (mask : List Bool)
    (h : buildOperatorMask df column action values = Except.ok mask) :
    ∃ xs, df.getCol column = some xs ∧ mask.length = xs.length := by
  cases hme : mapExcept (elementaryOpMask df column action) values with
  | error e => simp [buildOperatorMask, hme] at h
  | ok masks =>
    cases masks with
    | nil => simp [buildOperatorMask, combineJoin, hme] at h
    | cons m ms =>
      simp [buildOperatorMask, combineJoin, hme] at h
      have hmem := mapExcept_ok_mem _ _ _ hme
      obtain ⟨a, _, hfa⟩ := hmem m (List.mem_cons_self m ms)
      obtain ⟨xs, hxs, hml⟩ := elementaryOpMask_length df hwf column action a m hfa
      refine ⟨xs, hxs, ?_⟩
      have hall : ∀ x ∈ m :: ms, x.length = xs.length := by
        intro x hx
        obtain ⟨ax, _, hfax⟩ := hmem x hx
        obtain ⟨xs2, hxs2, hxl⟩ := elementaryOpMask_length df hwf column action ax x hfax
        rw [hxs] at hxs2
        cases hxs2
        exact hxl
      subst h
      cases hneg : hasNeg action with
      | true =>
        simp only [hneg, if_true]
        exact foldl_zipWith_length _ xs.length ms m hml
          (fun y hy => hall y (List.mem_cons_of_mem m hy))
      | false =>
        simp only [hneg, Bool.false_eq_true, if_false]
        exact foldl_zipWith_length _ xs.length ms m hml
          (fun y hy => hall y (List.mem_cons_of_mem m hy))

/-- A successful string-style compiled mask has the length of the target
column. -/
theorem buildStringMask_length (df : Table) (column action : String)
    (values : List Val) (mask : List Bool)
    (h : buildStringMask df column action values = Except.ok mask) :
    ∃ xs, df.getCol column = some xs ∧ mask.length = xs.length := by
  cases hme : mapExcept (elementaryStringMask df column action) values with
  | error e => simp [buildStringMask, hme] at h
  | ok masks =>
    cases masks with
    | nil => simp [buildStringMask, combineJoin, hme] at h
    | cons m ms =>
      simp [buildStringMask, combineJoin, hme] at h
      have hmem := mapExcept_ok_mem _ _ _ hme
      obtain ⟨a, _, hfa⟩ := hmem m (List.mem_cons_self m ms)
      obtain ⟨xs, hxs, hml⟩ := elementaryStringMask_length df column action a m hfa
      refine ⟨xs, hxs, ?_⟩
      have hall : ∀ x ∈ m :: ms, x.length = xs.length := by
        intro x hx
        obtain ⟨ax, _, hfax⟩ := hmem x hx
        obtain ⟨xs2, hxs2, hxl⟩ := elementaryStringMask_length df column action ax x hfax
        rw [hxs] at hxs2
        cases hxs2
        exact hxl
      subst h
      cases hneg : hasNeg action with
      | true =>
        simp only [hneg, if_true]
        exact foldl_zipWith_length _ xs.length ms m hml
          (fun y hy => hall y (List.mem_cons_of_mem m hy))
      | false =>
        simp only [hneg, Bool.false_eq_true, if_false]
        exact foldl_zipWith_length _ xs.length ms m hml
          (fun y hy => hall y (List.mem_cons_of_mem m hy))

/-- A successful compiled mask has the length of the where-column. -/
theorem buildPandasMask_length (df : Table) (hwf : df.Wf) (column action : String)
    (values : List Val) (mask : List Bool)
    (h : buildPandasMask df column action values = Except.ok mask) :
    ∃ xs, df.getCol column = some xs ∧ mask.length = xs.length := by
  unfold buildPandasMask at h
  by_cases hop : (action = "==" || action = "!=") = true
  · rw [if_pos hop] at h
    exact buildOperatorMask_length df hwf column action values mask h
  · rw [if_neg hop] at h
    by_cases hsm : (stringMethodsLookup action).isSome = true
    · rw [if_pos hsm] at h
      exact buildStringMask_length df column action values mask h
    · rw [if_neg hsm] at h
      simp at h

/-- Where the mask is false, the ternary select keeps the prior value. -/
theorem selectWhere_get (fv : Val) (mask : List Bool) (prior : List Val) (i : Nat)
    (hm : mask.get? i = some false) :
    (selectWhere mask fv prior).get? i = prior.get? i := by
  induction mask generalizing prior i with
  | nil => simp [List.get?] at hm
  | cons b bs ih =>
    cases prior with
    | nil => simp [selectWhere]
    | cons p ps =>
      cases i with
      | zero =>
        simp [List.get?] at hm
        simp [selectWhere, List.get?, hm]
      | succ j =>
        simp only [List.get?] at hm ⊢
        exact ih ps j hm

/-- Claim C10: a successful `ConditionalFill.run` modifies at most the fill
column — every other column is read back unchanged, the row count is
preserved, and at every row where the compiled mask is false the fill column
keeps its prior value. -/
theorem conditionalFill_frame_effect (r : ConditionalFill) (df df2 : Table)
    (hwf : df.Wf) (hrun : r.run df = Except.ok df2) :
    (∀ c, c ≠ r.fill_column → df2.getCol c = df.getCol c)
    ∧ df2.nRows = df.nRows
    ∧ (∀ (mask : List Bool) (prior : List Val),
        buildPandasMask df r.where_column r.where_condition r.where_condition_values
          = Except.ok mask →
        df.getCol r.fill_column = some prior →
        ∀ i, mask.get? i = some false →
          ((df2.getCol r.fill_column).getD []).get? i = prior.get? i) := by
  by_cases hwc : df.columnNames.contains r.where_column = false
  · have hmem : r.where_column ∉ df.columnNames := by simpa using hwc
    simp [ConditionalFill.run, hmem] at hrun
  · have hmem : r.where_column ∈ df.columnNames := by simpa using hwc
    cases hbm : buildPandasMask df r.where_column r.where_condition r.where_condition_values with
    | error e => simp [ConditionalFill.run, hmem, hbm] at hrun
    | ok mask0 =>
      cases hpr : df.getCol r.fill_column with
      | none => simp [ConditionalFill.run, hmem, hbm, hpr] at hrun
      | some prior0 =>
        simp [ConditionalFill.run, hmem, hbm, hpr] at hrun
        refine ⟨?_, ?_, ?_⟩
        · intro c hc
          rw [← hrun]
          exact getColList_setColList_ne df.cols c r.fill_column _ hc
        · rw [← hrun]
          obtain ⟨xs, hxs, hmlen⟩ := buildPandasMask_length df hwf r.where_column
            r.where_condition r.where_condition_values mask0 hbm
          have hxlen := wf_getCol_length df hwf r.where_column xs hxs
          have hplen := wf_getCol_length df hwf r.fill_column prior0 hpr
          apply nRows_setCol df r.fill_column _ prior0 hpr
          simp [selectWhere, List.length_zipWith, hmlen, hxlen, hplen]
        · intro mask prior hbm2 hpr2 i hmi
          injection hbm2 with hm2
          subst hm2
          injection hpr2 with hp2
          subst hp2
          rw [← hrun]
          show ((Table.getCol _ r.fill_column).getD []).get? i = _
          unfold Table.getCol Table.setCol
          rw [getColList_setColList_self]
          exact selectWhere_get r.fill_value mask0 prior0 i hmi

/-- The witness table for C10. -/
def dfC10 : Table := ⟨[("c", [Val.int 1, Val.int 2]), ("f", [Val.str "a", Val.str "b"])]⟩

/-- The witness fill rule for C10. -/
def cfC10 : ConditionalFill := ⟨"f", Val.str "X", "c", "==", [Val.int 1]⟩

/-- The witness output table for C10. -/
def dfC10out : Table := ⟨[("c", [Val.int 1, Val.int 2]), ("f", [Val.str "X", Val.str "b"])]⟩

/-- Witness for C10 at a concrete rule and table. -/
theorem conditionalFill_frame_effect_witness :
    cfC10.run dfC10 = Except.ok dfC10out
    ∧ dfC10out.getCol "c" = dfC10.getCol "c"
    ∧ dfC10out.nRows = dfC10.nRows := by
  have hrun : cfC10.run dfC10 = Except.ok dfC10out := by decide
  have h := conditionalFill_frame_effect cfC10 dfC10 dfC10out (by decide) hrun
  exact ⟨hrun, h.1 "c" (by decide), h.2.1⟩

end Panditas
